import Mathlib

/-!
# Verification of the browser-automation agent core

Shallow embedding, in Lean 4, of the core components of the repository:

* `RemoteComputer` (src/unnamed/part_005) — the remote executor / correlated
  action-dispatch protocol over a WebSocket channel;
* `Computer` (src/unnamed/part_004) — the local executor driving a Playwright page;
* `Agent` (src/unnamed/part_007) — the turn loop (`runFullTurn` / `handleModelResponse`);
* the session registry in src/server/src/server.ts
  (`initBrowserForConversation`, `cleanupInactiveSessions`).

Conventions used throughout the embedding:

* JS promises are modelled by explicit result values: a settled operation is an
  `Except String α` (`.error` = rejected with an `Error` whose message is the
  string; `.ok` = resolved).
* The outcome of one asynchronous channel round trip (which inbound event or
  timer settles a pending correlation) is supplied as an explicit `RoundTrip`
  argument, since the channel is an external collaborator.
* Side effects that the claims observe (envelopes sent over the channel, driver
  primitives invoked, notifications delivered to the message callback) are
  returned as explicit event lists.
* JSON string rendering in log/notification texts is abstracted: the argument
  part of an action notification is rendered by `argsRepr` (the claims depend on
  which notifications fire, not on the exact serialized argument text).
-/

/-! ## Remote executor: the pending-correlation machine (part_005)

`sendAction` registers a `pendingActions` entry `{resolve, reject, timeout}`
keyed by a fresh correlation id.  The entry can be settled by:
* an inbound `action-response` envelope with a matching id (the `ws.on("message")`
  handler installed by `setWebSocket`),
* the deadline timer firing (the `setTimeout` body in `sendAction`),
* the re-check at send time finding the channel no longer open.

`PendingState` tracks, for one fixed correlation id, whether the id is still in
the `pendingActions` map and every resolution that has fired for it (in order).
-/

/-- A resolution fired for one correlation id. -/
inductive RCOutcome
  /-- `pendingAction.resolve(message.data.result)` -/
  | resolved (result : Option String)
  /-- `pendingAction.reject(new Error(message.data?.error || "Unknown error"))` -/
  | rejectedErr (msg : String)
  /-- the deadline timer fired: `reject(new Error("Action ... timed out ..."))` -/
  | rejectedTimeout
  /-- the send-time re-check failed:
      `reject(new Error("WebSocket connection closed while sending action"))` -/
  | rejectedClosed
  deriving DecidableEq, Repr

/-- State of one correlation id: whether it is still in `pendingActions`, and
every resolution fired for it so far. -/
structure PendingState where
  pending : Bool
  outcomes : List RCOutcome
  deriving DecidableEq, Repr

/-- Events that can concern a registered correlation id after registration. -/
inductive RCEvent
  /-- an inbound `{type:"desktop-browser", action:"action-response", id, data}`
      envelope for this id; `success` is the truthiness of `data && data.success`. -/
  | response (success : Bool) (result : Option String) (errMsg : Option String)
  /-- the deadline `setTimeout` callback runs for this id -/
  | timerFire
  deriving DecidableEq, Repr

/-- Registration of a correlation id by `sendAction` (part_005 lines 120-154).
The promise executor stores `{resolve, reject, timeout}` in `pendingActions`,
then re-checks `this.ws && this.ws.readyState === WebSocket.OPEN`; if the
channel is gone at send time it removes the entry and rejects immediately. -/
def rcRegister (wsOpenAtSend : Bool) : PendingState :=
  if wsOpenAtSend then
    { pending := true, outcomes := [] }
  else
    { pending := false, outcomes := [RCOutcome.rejectedClosed] }

/-- One event processed against the state of a correlation id.

* `action-response` branch (part_005 lines 75-97): only if the id is still in
  `pendingActions` does it clear the timer, resolve or reject, and delete the
  entry; otherwise it only logs a warning.
* timer body (part_005 lines 133-138): guarded by `pendingActions.has(actionId)`;
  a timer firing after the entry was removed is a no-op. -/
def rcStep (s : PendingState) (e : RCEvent) : PendingState :=
  match e with
  | RCEvent.response success result errMsg =>
      if s.pending then
        { pending := false,
          outcomes := s.outcomes ++
            [if success then RCOutcome.resolved result
             else RCOutcome.rejectedErr (errMsg.getD "Unknown error")] }
      else s
  | RCEvent.timerFire =>
      if s.pending then
        { pending := false, outcomes := s.outcomes ++ [RCOutcome.rejectedTimeout] }
      else s

/-- Invariant of the correlation machine: while the id is pending nothing has
fired; once it is no longer pending, exactly one resolution has fired. -/
def rcInv (s : PendingState) : Prop :=
  (s.pending = true ∧ s.outcomes = []) ∨ (s.pending = false ∧ s.outcomes.length = 1)

instance : DecidablePred rcInv := fun s => by
  unfold rcInv
  infer_instance

/-! ## Remote executor: the operations (part_005) -/

/-- `this.ws.readyState` values of the `ws` library. -/
inductive WsReadyState
  | connecting
  | open
  | closing
  | closed
  deriving DecidableEq, Repr

/-- The fields of `RemoteComputer` the operations read.  `ws` is the attached
channel (with its ready state); `lastScreenshot` / `currentUrl` are the caches
updated by unsolicited `screenshot` / `url` pushes from the desktop host. -/
structure RemoteComputer where
  ws : Option WsReadyState
  lastScreenshot : Option String
  currentUrl : Option String
  deriving DecidableEq, Repr

/-- The entry guard of `sendAction`:
`!this.ws || this.ws.readyState !== WebSocket.OPEN`. -/
def RemoteComputer.wsAvailable (rc : RemoteComputer) : Bool :=
  match rc.ws with
  | some WsReadyState.open => true
  | _ => false

/-- How one channel round trip settles, supplied by the environment. -/
inductive RoundTrip
  /-- a matching `action-response` arrives; `success` is the truthiness of
      `message.data && message.data.success` -/
  | reply (success : Bool) (result : Option String) (errMsg : Option String)
  /-- the 30s deadline timer fires first -/
  | timedOut
  /-- the send-time re-check finds the channel no longer open -/
  | closedBeforeSend
  deriving DecidableEq, Repr

/-- `sendAction` (part_005 lines 108-155).  Returns the settled promise value
(`.ok none` is the JS `null`) together with the list of action envelopes
actually sent over the channel (identified by their `action` name; the
serialized params payload is abstracted away). -/
def RemoteComputer.sendAction (rc : RemoteComputer) (action : String)
    (rt : RoundTrip) : Except String (Option String) × List String :=
  if rc.wsAvailable = false then
    -- "WebSocket connection not available, action will be simulated"
    (Except.ok none, [])
  else
    match rt with
    | RoundTrip.closedBeforeSend =>
        (Except.error "WebSocket connection closed while sending action", [])
    | RoundTrip.reply true result _ => (Except.ok result, [action])
    | RoundTrip.reply false _ errMsg =>
        (Except.error (errMsg.getD "Unknown error"), [action])
    | RoundTrip.timedOut =>
        (Except.error ("Action " ++ action ++ " timed out after 30000ms"), [action])

/-- `await this.sendAction(...)` in a `Promise<void>` method: the resolved
value is discarded, a rejection propagates. -/
def voidResult (r : Except String (Option String)) : Except String Unit :=
  r.map (fun _ => ())

/-- `RemoteComputer.click` (part_005 lines 158-165). -/
def RemoteComputer.click (rc : RemoteComputer) (_x _y : Int) (_button : String)
    (rt : RoundTrip) : Except String Unit × List String :=
  let r := rc.sendAction "click" rt
  (voidResult r.1, r.2)

/-- `RemoteComputer.double_click` (part_005 lines 167-170). -/
def RemoteComputer.double_click (rc : RemoteComputer) (_x _y : Int)
    (rt : RoundTrip) : Except String Unit × List String :=
  let r := rc.sendAction "doubleClick" rt
  (voidResult r.1, r.2)

/-- `RemoteComputer.move` (part_005 lines 172-175). -/
def RemoteComputer.move (rc : RemoteComputer) (_x _y : Int)
    (rt : RoundTrip) : Except String Unit × List String :=
  let r := rc.sendAction "move" rt
  (voidResult r.1, r.2)

/-- `RemoteComputer.drag` (part_005 lines 177-188): the path-length check comes
first, before any channel interaction. -/
def RemoteComputer.drag (rc : RemoteComputer) (path : List (Int × Int))
    (rt : RoundTrip) : Except String Unit × List String :=
  if path.length < 2 then
    (Except.error "Drag path must contain at least two points", [])
  else
    let r := rc.sendAction "drag" rt
    (voidResult r.1, r.2)

/-- `RemoteComputer.scroll` (part_005 lines 190-205). -/
def RemoteComputer.scroll (rc : RemoteComputer) (_x _y _sx _sy : Int)
    (rt : RoundTrip) : Except String Unit × List String :=
  let r := rc.sendAction "scroll" rt
  (voidResult r.1, r.2)

/-- `RemoteComputer.keypress` (part_005 lines 207-212). -/
def RemoteComputer.keypress (rc : RemoteComputer) (_keys : List String)
    (rt : RoundTrip) : Except String Unit × List String :=
  let r := rc.sendAction "keypress" rt
  (voidResult r.1, r.2)

/-- `RemoteComputer.type` (part_005 lines 214-217). -/
def RemoteComputer.type (rc : RemoteComputer) (_text : String)
    (rt : RoundTrip) : Except String Unit × List String :=
  let r := rc.sendAction "type" rt
  (voidResult r.1, r.2)

/-- `RemoteComputer.wait` (part_005 lines 219-222); `ms` defaults to 2000. -/
def RemoteComputer.wait (rc : RemoteComputer) (_ms : Option Nat)
    (rt : RoundTrip) : Except String Unit × List String :=
  let r := rc.sendAction "wait" rt
  (voidResult r.1, r.2)

/-- `RemoteComputer.goto` (part_005 lines 274-277). -/
def RemoteComputer.goto (rc : RemoteComputer) (_url : String)
    (rt : RoundTrip) : Except String Unit × List String :=
  let r := rc.sendAction "navigate" rt
  (voidResult r.1, r.2)

/-- `RemoteComputer.back` (part_005 lines 279-282). -/
def RemoteComputer.back (rc : RemoteComputer)
    (rt : RoundTrip) : Except String Unit × List String :=
  let r := rc.sendAction "back" rt
  (voidResult r.1, r.2)

/-- `RemoteComputer.forward` (part_005 lines 284-287). -/
def RemoteComputer.forward (rc : RemoteComputer)
    (rt : RoundTrip) : Except String Unit × List String :=
  let r := rc.sendAction "forward" rt
  (voidResult r.1, r.2)

/-- `RemoteComputer.screenshot` (part_005 lines 224-245).  The `try` body
requests a fresh screenshot, then throws "No screenshot available" if the cache
is empty; the `catch` falls back to the cache and rethrows only when the cache
is empty too.  (Cache updates by unsolicited pushes during the round trip are
part of the channel collaborator; this reads the cache as of the call.) -/
def RemoteComputer.screenshot (rc : RemoteComputer)
    (rt : RoundTrip) : Except String String × List String :=
  let r := rc.sendAction "takeScreenshot" rt
  match r.1 with
  | Except.ok _ =>
      (match rc.lastScreenshot with
       | some s => Except.ok s
       | none => Except.error "No screenshot available", r.2)
  | Except.error e =>
      (match rc.lastScreenshot with
       | some s => Except.ok s
       | none => Except.error e, r.2)

/-- `RemoteComputer.get_current_url` (part_005 lines 247-272).  A string result
from the round trip is returned directly (it also refreshes the cache, which
does not affect this call's value); a `null` result falls back to the cached
URL or throws "Current URL not available"; a rejection falls back to the cached
URL or rethrows. -/
def RemoteComputer.get_current_url (rc : RemoteComputer)
    (rt : RoundTrip) : Except String String × List String :=
  let r := rc.sendAction "getCurrentUrl" rt
  match r.1 with
  | Except.ok (some s) => (Except.ok s, r.2)
  | Except.ok none =>
      (match rc.currentUrl with
       | some u => Except.ok u
       | none => Except.error "Current URL not available", r.2)
  | Except.error e =>
      (match rc.currentUrl with
       | some u => Except.ok u
       | none => Except.error e, r.2)

/-! ## Local executor: `Computer` (part_004)

Every operation first checks `this.page` and throws "Page not initialized" when
it is absent, then invokes Playwright driver primitives.  The driver primitives
an operation invokes are returned as a `DriverEv` list (the driver itself is an
external collaborator assumed to succeed); the page handle carries no state the
claims observe, so it is modelled by `Option Unit`. -/

/-- Driver primitives invoked by the local executor. -/
inductive DriverEv
  /-- the `page.evaluate` that rewrites `a[target="_blank"]` anchors to `_self` -/
  | evalNeutralizeBlankTargets
  | mouseClick (x y : Int) (button : String)
  | mouseDblClick (x y : Int)
  | mouseMove (x y : Int)
  | mouseDown
  | mouseUp
  | evalScrollBy (dx dy : Int)
  | keyboardPress (key : String)
  | keyboardType (text : String)
  | waitForTimeout (ms : Nat)
  | screenshotPng
  | pageUrl
  | pageGoto (url : String)
  | goBack
  | goForward
  deriving DecidableEq, Repr

/-- `Computer.click` (part_004 lines 18-45): maps `wheel` to `middle` and
`back`/`forward` to `left`, neutralizes same-page new-tab anchors, then clicks. -/
def Computer.click (page : Option Unit) (x y : Int) (button : String) :
    List DriverEv × Except String Unit :=
  match page with
  | none => ([], Except.error "Page not initialized")
  | some _ =>
      let mappedButton :=
        if button = "wheel" then "middle"
        else if button = "back" ∨ button = "forward" then "left"
        else button
      ([DriverEv.evalNeutralizeBlankTargets, DriverEv.mouseClick x y mappedButton],
       Except.ok ())

/-- `Computer.double_click` (part_004 lines 47-54). -/
def Computer.double_click (page : Option Unit) (x y : Int) :
    List DriverEv × Except String Unit :=
  match page with
  | none => ([], Except.error "Page not initialized")
  | some _ => ([DriverEv.mouseDblClick x y], Except.ok ())

/-- `Computer.move` (part_004 lines 56-63). -/
def Computer.move (page : Option Unit) (x y : Int) :
    List DriverEv × Except String Unit :=
  match page with
  | none => ([], Except.error "Page not initialized")
  | some _ => ([DriverEv.mouseMove x y], Except.ok ())

/-- `Computer.drag` (part_004 lines 65-89): the page check precedes the
path-length check; a valid drag moves to the first point, presses, moves through
the remaining points, and releases. -/
def Computer.drag (page : Option Unit) (path : List (Int × Int)) :
    List DriverEv × Except String Unit :=
  match page with
  | none => ([], Except.error "Page not initialized")
  | some _ =>
      if path.length < 2 then
        ([], Except.error "Drag path must contain at least two points")
      else
        match path with
        | [] => ([], Except.error "Drag path must contain at least two points")
        | p0 :: rest =>
            ([DriverEv.mouseMove p0.1 p0.2, DriverEv.mouseDown] ++
               rest.map (fun p => DriverEv.mouseMove p.1 p.2) ++ [DriverEv.mouseUp],
             Except.ok ())

/-- `Computer.scroll` (part_004 lines 91-106). -/
def Computer.scroll (page : Option Unit) (x y sx sy : Int) :
    List DriverEv × Except String Unit :=
  match page with
  | none => ([], Except.error "Page not initialized")
  | some _ => ([DriverEv.mouseMove x y, DriverEv.evalScrollBy sx sy], Except.ok ())

/-- The per-token key mapping of `Computer.keypress`: a token containing
`"ENTER"` presses Enter, one containing `"SPACE"` presses the space bar, any
other token is passed through. -/
def keypressKey (k : String) : String :=
  if (k.splitOn "ENTER").length > 1 then "Enter"
  else if (k.splitOn "SPACE").length > 1 then " "
  else k

/-- `Computer.keypress` (part_004 lines 108-123). -/
def Computer.keypress (page : Option Unit) (keys : List String) :
    List DriverEv × Except String Unit :=
  match page with
  | none => ([], Except.error "Page not initialized")
  | some _ => (keys.map (fun k => DriverEv.keyboardPress (keypressKey k)), Except.ok ())

/-- `Computer.type` (part_004 lines 125-132). -/
def Computer.type (page : Option Unit) (text : String) :
    List DriverEv × Except String Unit :=
  match page with
  | none => ([], Except.error "Page not initialized")
  | some _ => ([DriverEv.keyboardType text], Except.ok ())

/-- `Computer.wait` (part_004 lines 134-141); `ms` defaults to 2000. -/
def Computer.wait (page : Option Unit) (ms : Option Nat) :
    List DriverEv × Except String Unit :=
  match page with
  | none => ([], Except.error "Page not initialized")
  | some _ => ([DriverEv.waitForTimeout (ms.getD 2000)], Except.ok ())

/-- `Computer.screenshot` (part_004 lines 143-152); the captured image is the
driver's, abstracted to a fixed base64 string. -/
def Computer.screenshot (page : Option Unit) :
    List DriverEv × Except String String :=
  match page with
  | none => ([], Except.error "Page not initialized")
  | some _ => ([DriverEv.screenshotPng], Except.ok "png-base64")

/-- `Computer.get_current_url` (part_004 lines 154-160); the URL value is the
driver's, abstracted to a fixed string. -/
def Computer.get_current_url (page : Option Unit) :
    List DriverEv × Except String String :=
  match page with
  | none => ([], Except.error "Page not initialized")
  | some _ => ([DriverEv.pageUrl], Except.ok "page-url")

/-- `Computer.goto` (part_004 lines 162-169). -/
def Computer.goto (page : Option Unit) (url : String) :
    List DriverEv × Except String Unit :=
  match page with
  | none => ([], Except.error "Page not initialized")
  | some _ => ([DriverEv.pageGoto url], Except.ok ())

/-- `Computer.back` (part_004 lines 171-178). -/
def Computer.back (page : Option Unit) :
    List DriverEv × Except String Unit :=
  match page with
  | none => ([], Except.error "Page not initialized")
  | some _ => ([DriverEv.goBack], Except.ok ())

/-- `Computer.forward` (part_004 lines 180-187). -/
def Computer.forward (page : Option Unit) :
    List DriverEv × Except String Unit :=
  match page with
  | none => ([], Except.error "Page not initialized")
  | some _ => ([DriverEv.goForward], Except.ok ())

/-! ## Session registry (src/server/src/server.ts)

`conversationSessions` is a JS `Map<string, ConversationSession>`: modelled as
an association list with the `Map` update discipline (`setSession` replaces the
value at an existing key in place, else appends).  A session's identity (the
concrete browser/page/agent/computer quadruple constructed for it) is modelled
by a creation token drawn from a counter. -/

/-- The fields of `ConversationSession` (server.ts lines 42-51) the registry
logic reads: `connectedClients` is modelled by its size, and the
browser/page/agent/computer quadruple by the creation `token`. -/
structure ServerSession where
  token : Nat
  connectedClients : Nat
  lastActivity : Nat
  deriving DecidableEq, Repr

/-- `SESSION_TIMEOUT_MS = 30 * 60 * 1000` (server.ts line 57). -/
def SESSION_TIMEOUT_MS : Nat := 30 * 60 * 1000

/-- `conversationSessions.get(id)`. -/
def lookupSession (sessions : List (String × ServerSession)) (id : String) :
    Option ServerSession :=
  (sessions.find? (fun e => e.1 == id)).map (fun e => e.2)

/-- `conversationSessions.set(id, s)` (also models the in-place mutation
`session.lastActivity = Date.now()`, which updates the stored object). -/
def setSession (sessions : List (String × ServerSession)) (id : String)
    (s : ServerSession) : List (String × ServerSession) :=
  match sessions with
  | [] => [(id, s)]
  | e :: rest => if e.1 == id then (id, s) :: rest else e :: setSession rest id s

/-- Registry state: the session map plus the creation counter that tokens are
drawn from. -/
structure ServerState where
  sessions : List (String × ServerSession)
  nextToken : Nat
  deriving DecidableEq, Repr

/-- `initBrowserForConversation` (server.ts lines 79-167).  An existing session
is returned with `lastActivity` refreshed; otherwise, when the BrowserBase
environment variables are present (`envOk`), a fresh browser/page/agent/computer
quadruple (a fresh token) is constructed, stored, and returned; with the
variables missing, creation throws. -/
def initBrowserForConversation (envOk : Bool) (now : Nat) (st : ServerState)
    (id : String) : Except String (ServerSession × ServerState) :=
  match lookupSession st.sessions id with
  | some s =>
      let s1 := { s with lastActivity := now }
      Except.ok (s1, { st with sessions := setSession st.sessions id s1 })
  | none =>
      if envOk then
        let s : ServerSession :=
          { token := st.nextToken, connectedClients := 0, lastActivity := now }
        Except.ok (s, { sessions := setSession st.sessions id s,
                        nextToken := st.nextToken + 1 })
      else
        Except.error
          "BROWSERBASE_API_KEY and BROWSERBASE_PROJECT_ID must be set in .env file"

/-- `cleanupInactiveSessions` (server.ts lines 170-183): deletes every entry
with `now - session.lastActivity > SESSION_TIMEOUT_MS`; the observer set
(`connectedClients`) is never consulted. -/
def cleanupInactiveSessions (now : Nat)
    (sessions : List (String × ServerSession)) : List (String × ServerSession) :=
  sessions.filter (fun e => decide (now - e.2.lastActivity ≤ SESSION_TIMEOUT_MS))

/-! ## Turn loop: `Agent` (part_007)

`runFullTurn` repeatedly calls `createResponse` (the oracle) and processes each
returned item with `handleModelResponse`, until the last accumulated item is an
assistant-role message or the turn is interrupted.  The embedding:

* the oracle is a function from the query index to that query's settled result
  (`.error` = the `createResponse` promise rejected);
* the `isInterrupted` flag, set concurrently by `interrupt()`, is modelled by a
  threshold `interruptAt` on a logical clock `k` that ticks at every `await`
  (oracle query, item handling): a read at time `k` sees the flag set iff
  `interruptAt = some n` with `n ≤ k`.  Reads within one synchronous stretch
  (no `await` between them) see the same clock value;
* a thrown JS exception that `runFullTurn` does not catch is an `AgentEx`
  carried out of the run;
* observable effects (notifications through `messageCallback`, computer-action
  execution, screenshot/URL steps, oracle queries) form the `Ev` trace;
* `messageCallback` is taken to be supplied (as the server does), and
  `response.output` to be present on every successful oracle reply. -/

/-- `AgentMessageType` (part_007 lines 58-63). -/
inductive MsgType
  | action
  | thinking
  | complete
  | error
  | interrupted
  deriving DecidableEq, Repr

/-- `PendingSafetyCheck` (part_007 lines 113-117). -/
structure SafetyCheck where
  id : String
  code : String
  message : String
  deriving DecidableEq, Repr

/-- `ComputerAction` (part_007 lines 105-111): the explicitly typed variants
plus `OtherAction` for any other `type` tag (whose extra args are not consulted
by the switch, only forwarded). -/
inductive CAction
  | click (x y : Int) (button : Option String)
  | scroll (x y sx sy : Int)
  | keypress (keys : List String)
  | typeText (text : String)
  | wait (ms : Option Nat)
  | other (name : String)
  deriving DecidableEq, Repr

/-- The `actionType` string of a `ComputerAction`. -/
def CAction.name : CAction → String
  | CAction.click _ _ _ => "click"
  | CAction.scroll _ _ _ _ => "scroll"
  | CAction.keypress _ => "keypress"
  | CAction.typeText _ => "type"
  | CAction.wait _ => "wait"
  | CAction.other n => n

/-- The `ResponseItem` union (part_007 lines 119-153) together with the output
items `handleModelResponse` builds and the synthetic `{role:"assistant"}`
objects `runFullTurn` pushes.  A `message` item carries its `content` texts
(the oracle emits message items with role `assistant`). -/
inductive Item
  | message (texts : List String)
  | functionCall (name arguments callId : String)
  | computerCall (callId : String) (action : CAction) (checks : List SafetyCheck)
  | functionCallOutput (callId output : String)
  | computerCallOutput (callId : String) (acknowledged : List SafetyCheck)
      (imageUrl currentUrl : String)
  | assistantMsg (text : String)
  deriving DecidableEq, Repr

/-- The `role` property read by the loop condition
`modelResponses[modelResponses.length - 1]?.role !== "assistant"`: oracle
message items and the synthetic pushes carry role `assistant`; the
`*_output` object literals and call items have no `role` property. -/
def Item.role : Item → Option String
  | Item.message _ => some "assistant"
  | Item.assistantMsg _ => some "assistant"
  | _ => none

/-- Exceptions thrown inside `handleModelResponse` that `runFullTurn` does not
catch and therefore propagates to its caller. -/
inductive AgentEx
  /-- `tools[name]` is `undefined` for a name outside the registry, so reading
      `.handler` throws a `TypeError` -/
  | undefinedHandler (name : String)
  /-- `throw new Error("Safety check failed: ...")` (part_007 lines 313-317) -/
  | safetyCheck (message : String)
  deriving DecidableEq, Repr

/-- Observable events of one turn. -/
inductive Ev
  /-- `createResponse` invoked for the n-th time (0-based) -/
  | oracleQuery (n : Nat)
  /-- `messageCallback(text, kind)` invoked -/
  | notify (text : String) (kind : MsgType)
  /-- a computer method invoked for the action type -/
  | performedAction (name : String)
  /-- `console.warn("Unknown computer action type: ...")`, nothing executed -/
  | warnedUnknownAction (name : String)
  /-- `this.computer.screenshot()` awaited -/
  | tookScreenshot
  /-- `this.computer.get_current_url()` awaited -/
  | fetchedUrl
  deriving DecidableEq, Repr

/-- The notifications in a trace, in order. -/
def notifsOf (tr : List Ev) : List (String × MsgType) :=
  tr.filterMap (fun e =>
    match e with
    | Ev.notify m t => some (m, t)
    | _ => none)

/-- Rendering of `JSON.stringify(actionArgs)` in the `action` notification
text; the serialized argument text is abstracted (claims depend on which
notifications fire, not on the rendered arguments). -/
def argsRepr (_a : CAction) : String := "args"

/-- `${actionType}(${JSON.stringify(actionArgs)})`. -/
def describeAction (a : CAction) : String :=
  a.name ++ "(" ++ argsRepr a ++ ")"

/-- Environment of one turn.  `methodNames` is the set of function-valued
properties of the computer object consulted by the default branch of the action
switch; `screenshotVal` / `urlResult` are the values produced by the computer's
screenshot and current-URL calls in this run (`urlResult = none` models a
caught `get_current_url`/blocklist error, leaving `currentUrl` as `""`;
the blocklist itself is empty, part_007 lines 40-51). -/
structure AgentCfg where
  environment : String
  methodNames : List String
  screenshotVal : String
  urlResult : Option String
  gotoResult : String
  ack : String → Bool
  printSteps : Bool
  oracle : Nat → Except Unit (List Item)
  interruptAt : Option Nat

/-- The value `this.isInterrupted` reads at logical time `k`. -/
def intrFlag (interruptAt : Option Nat) (k : Nat) : Bool :=
  match interruptAt with
  | none => false
  | some n => n ≤ k

/-- The computer-method invocations of the `switch (actionType)` (part_007
lines 252-300).  The typed cases run the matching computer method (their field
guards hold for well-formed actions; `wait` applies its 2000 default); an
`other` tag whose string collides with a guarded case label falls through that
case's failed field guard silently; otherwise the default branch invokes a
matching computer method when one exists and only warns when none does. -/
def execEvs (cfg : AgentCfg) (a : CAction) : List Ev :=
  match a with
  | CAction.click _ _ _ => [Ev.performedAction "click"]
  | CAction.scroll _ _ _ _ => [Ev.performedAction "scroll"]
  | CAction.keypress _ => [Ev.performedAction "keypress"]
  | CAction.typeText _ => [Ev.performedAction "type"]
  | CAction.wait _ => [Ev.performedAction "wait"]
  | CAction.other n =>
      if n = "click" ∨ n = "scroll" ∨ n = "keypress" ∨ n = "type" then []
      else if n = "wait" then [Ev.performedAction "wait"]
      else if cfg.methodNames.contains n then [Ev.performedAction n]
      else [Ev.warnedUnknownAction n]

/-- `handleModelResponse` (part_007 lines 190-346) for one response item:
returns the events it fires (in order) and either the output items it returns
or the exception it throws.

* `message`: a `thinking` notification when `printSteps` and the first content
  text is truthy;
* `function_call`: an `action` notification when `printSteps`, then the tool
  lookup — the registry (src/unnamed/part_003, `tools`) contains only `goto`,
  whose handler resolves to its success/error sentinel; any other name throws
  reading `.handler` of `undefined`;
* `computer_call`: an `action` notification when `printSteps`, the action
  switch, an unconditional screenshot, then the pending safety checks in order
  — the first check the callback refuses throws; with all checks acknowledged,
  a browser environment fetches the current URL (errors caught), and the
  `computer_call_output` carries the full pending list as acknowledged;
* all other items: no effects, no outputs. -/
def handleItem (cfg : AgentCfg) : Item → List Ev × Except AgentEx (List Item)
  | Item.message texts =>
      match texts.head? with
      | some t =>
          if cfg.printSteps ∧ t ≠ "" then ([Ev.notify t MsgType.thinking], Except.ok [])
          else ([], Except.ok [])
      | none => ([], Except.ok [])
  | Item.functionCall name arguments callId =>
      let evs := if cfg.printSteps
        then [Ev.notify (name ++ "(" ++ arguments ++ ")") MsgType.action] else []
      if name = "goto" then
        (evs ++ [Ev.performedAction "goto"],
         Except.ok [Item.functionCallOutput callId cfg.gotoResult])
      else
        (evs, Except.error (AgentEx.undefinedHandler name))
  | Item.computerCall callId action checks =>
      let evs0 := if cfg.printSteps
        then [Ev.notify (describeAction action) MsgType.action] else []
      let evs1 := evs0 ++ execEvs cfg action ++ [Ev.tookScreenshot]
      match checks.find? (fun c => ! cfg.ack c.message) with
      | some c => (evs1, Except.error (AgentEx.safetyCheck c.message))
      | none =>
          if cfg.environment = "browser" then
            (evs1 ++ [Ev.fetchedUrl],
             Except.ok [Item.computerCallOutput callId checks
               ("data:image/png;base64," ++ cfg.screenshotVal)
               (cfg.urlResult.getD "")])
          else
            (evs1,
             Except.ok [Item.computerCallOutput callId checks
               ("data:image/png;base64," ++ cfg.screenshotVal) ""])
  | _ => ([], Except.ok [])

/-- Result of the inner `for (const responseElement of response.output)` loop. -/
structure ProcOut where
  trace : List Ev
  k : Nat
  acc : List Item
  exc : Option AgentEx
  deriving Repr

/-- The inner item loop (part_007 lines 434-448): before each item the
interruption flag is checked (an `interrupted` notification and `break`); a
thrown exception propagates with the effects fired so far; otherwise the
handler's outputs are appended and the next item processed. -/
def procItems (cfg : AgentCfg) (k : Nat) (acc : List Item) :
    List Item → ProcOut
  | [] => { trace := [], k := k, acc := acc, exc := none }
  | i :: rest =>
      if intrFlag cfg.interruptAt k then
        { trace := [Ev.notify "Agent execution was interrupted." MsgType.interrupted],
          k := k, acc := acc, exc := none }
      else
        let h := handleItem cfg i
        let k1 := k + 1
        match h.2 with
        | Except.error e => { trace := h.1, k := k1, acc := acc, exc := some e }
        | Except.ok outs =>
            let r := procItems cfg k1 (acc ++ outs) rest
            { trace := h.1 ++ r.trace, k := r.k, acc := r.acc, exc := r.exc }

/-- Result of the `while` loop of `runFullTurn`, before the post-loop
notifications. -/
structure LoopOut where
  trace : List Ev
  k : Nat
  acc : List Item
  exc : Option AgentEx
  fuelOut : Bool
  deriving Repr

/-- The `while` loop of `runFullTurn` (part_007 lines 372-449).  The loop
continues while the flag is unset and the last accumulated item is not an
assistant-role message.  Each iteration queries the oracle (`qn` counts
queries): a transport failure fires the `error` notification, pushes the
synthetic assistant message, and breaks; then the flag is re-checked (an
`interrupted` notification and break); then the batch is appended and the inner
item loop runs — an exception it raises propagates immediately.  `fuel` bounds
the number of iterations modelled (the loop itself is unbounded); a run that
exhausts fuel is marked `fuelOut` instead of reaching the post-loop code. -/
def runLoop (cfg : AgentCfg) : Nat → Nat → Nat → List Item → LoopOut
  | fuel, k, qn, acc =>
      if intrFlag cfg.interruptAt k ∨ (acc.getLast?.map Item.role).join = some "assistant" then
        { trace := [], k := k, acc := acc, exc := none, fuelOut := false }
      else
        match fuel with
        | 0 => { trace := [], k := k, acc := acc, exc := none, fuelOut := true }
        | fuel1 + 1 =>
            match cfg.oracle qn with
            | Except.error _ =>
                { trace := [Ev.oracleQuery qn,
                    Ev.notify
                      "An error occurred while processing your request. Please try again."
                      MsgType.error],
                  k := k + 1,
                  acc := acc ++ [Item.assistantMsg
                    "I encountered an error while processing your request. Please try again."],
                  exc := none, fuelOut := false }
            | Except.ok items =>
                let k1 := k + 1
                if intrFlag cfg.interruptAt k1 then
                  { trace := [Ev.oracleQuery qn,
                      Ev.notify "Agent execution was interrupted." MsgType.interrupted],
                    k := k1, acc := acc, exc := none, fuelOut := false }
                else
                  let p := procItems cfg k1 (acc ++ items) items
                  match p.exc with
                  | some e =>
                      { trace := Ev.oracleQuery qn :: p.trace, k := p.k,
                        acc := p.acc, exc := some e, fuelOut := false }
                  | none =>
                      let r := runLoop cfg fuel1 p.k (qn + 1) p.acc
                      { trace := Ev.oracleQuery qn :: (p.trace ++ r.trace),
                        k := r.k, acc := r.acc, exc := r.exc, fuelOut := r.fuelOut }

/-- How a modelled turn ends: normal return of the accumulated transcript, an
uncaught exception (the transcript is not returned), or model fuel exhausted
while the real loop would continue. -/
inductive TurnEnd
  | finished (transcript : List Item)
  | excepted (e : AgentEx)
  | fuelOut (acc : List Item)
  deriving Repr

/-- `runFullTurn` (part_007 lines 348-466): runs the loop from an empty
accumulator, then — unless an exception propagated — executes the post-loop
code in one synchronous stretch: with the flag set, one more `interrupted`
notification plus the synthetic assistant message; with the flag clear, the
`complete` notification (the guard checks only `!this.isInterrupted`, so it
also fires after the oracle-failure break). -/
def runFullTurn (cfg : AgentCfg) (fuel : Nat) : List Ev × TurnEnd :=
  let r := runLoop cfg fuel 0 0 []
  match r.exc with
  | some e => (r.trace, TurnEnd.excepted e)
  | none =>
      if r.fuelOut then (r.trace, TurnEnd.fuelOut r.acc)
      else if intrFlag cfg.interruptAt r.k then
        (r.trace ++ [Ev.notify "Agent execution was interrupted." MsgType.interrupted],
         TurnEnd.finished (r.acc ++
           [Item.assistantMsg "Agent execution was interrupted."]))
      else
        (r.trace ++ [Ev.notify "Agent execution completed." MsgType.complete],
         TurnEnd.finished r.acc)

/-! ## Concrete scenario configurations used by the concrete runs below -/

/-- A pending safety check with message `"m"`. -/
def chkM : SafetyCheck := { id := "sc1", code := "code", message := "m" }

/-- A disconnected remote executor: no channel attached, empty caches. -/
def rcDetached : RemoteComputer :=
  { ws := none, lastScreenshot := none, currentUrl := none }

/-- A turn whose first oracle query fails (the `createResponse` promise
rejects); safety checks acknowledged; browser environment. -/
def cfgOracleFailure : AgentCfg :=
  { environment := "browser", methodNames := [], screenshotVal := "shot",
    urlResult := some "https://example.test", gotoResult := "success",
    ack := fun _ => true, printSteps := true,
    oracle := fun _ => Except.error (), interruptAt := none }

/-- A turn whose first oracle batch is one `computer_call` (a click) carrying
one pending safety check, with an acknowledgment callback refusing every
check. -/
def cfgSafetyReject : AgentCfg :=
  { environment := "browser", methodNames := [], screenshotVal := "shot",
    urlResult := some "https://example.test", gotoResult := "success",
    ack := fun _ => false, printSteps := true,
    oracle := fun n =>
      if n = 0 then
        Except.ok [Item.computerCall "call-1" (CAction.click 1 2 (some "left")) [chkM]]
      else Except.error (),
    interruptAt := none }

/-- A turn whose first oracle batch is one `function_call` naming a tool
outside the registry. -/
def cfgUnknownTool : AgentCfg :=
  { environment := "browser", methodNames := [], screenshotVal := "shot",
    urlResult := some "https://example.test", gotoResult := "success",
    ack := fun _ => true, printSteps := true,
    oracle := fun n =>
      if n = 0 then Except.ok [Item.functionCall "badTool" "1" "call-1"]
      else Except.error (),
    interruptAt := none }

/-- A turn whose first oracle batch is one `computer_call` with an
unrecognized action type, followed by a terminal assistant message. -/
def cfgUnknownAction : AgentCfg :=
  { environment := "browser", methodNames := [], screenshotVal := "shot",
    urlResult := some "https://example.test", gotoResult := "success",
    ack := fun _ => true, printSteps := true,
    oracle := fun n =>
      if n = 0 then Except.ok [Item.computerCall "call-1" (CAction.other "weird") []]
      else if n = 1 then Except.ok [Item.message ["done"]]
      else Except.error (),
    interruptAt := none }

/-! ## Helper lemmas -/

/-- A settled correlation ignores every further event (the `pendingActions`
membership guards in the response handler and the timer body). -/
theorem rcStep_not_pending (s : PendingState) (h : s.pending = false)
    (e : RCEvent) : rcStep s e = s := by
  cases e <;> simp [rcStep, h]

/-- Folding any event list over a settled correlation leaves it unchanged. -/
theorem foldl_rcStep_not_pending (events : List RCEvent) (s : PendingState)
    (h : s.pending = false) : events.foldl rcStep s = s := by
  induction events with
  | nil => rfl
  | cons e rest ih => rw [List.foldl_cons, rcStep_not_pending s h e]; exact ih

/-- Any event settles a pending correlation: it leaves the map and exactly one
resolution fires. -/
theorem rcStep_pending (s : PendingState) (h : s.pending = true) (e : RCEvent) :
    (rcStep s e).pending = false ∧
    (rcStep s e).outcomes.length = s.outcomes.length + 1 := by
  cases e <;> simp [rcStep, h]

/-- The action switch never fires a notification, URL fetch, or oracle query:
it either performs one computer method, or warns once, or silently falls
through a failed field guard. -/
theorem execEvs_shape (cfg : AgentCfg) (a : CAction) :
    execEvs cfg a = [] ∨ (∃ n, execEvs cfg a = [Ev.performedAction n]) ∨
      (∃ n, execEvs cfg a = [Ev.warnedUnknownAction n]) := by
  cases a with
  | click x y b => exact Or.inr (Or.inl ⟨"click", rfl⟩)
  | scroll x y sx sy => exact Or.inr (Or.inl ⟨"scroll", rfl⟩)
  | keypress keys => exact Or.inr (Or.inl ⟨"keypress", rfl⟩)
  | typeText text => exact Or.inr (Or.inl ⟨"type", rfl⟩)
  | wait ms => exact Or.inr (Or.inl ⟨"wait", rfl⟩)
  | other n =>
      simp only [execEvs]
      split
      · exact Or.inl rfl
      · split
        · exact Or.inr (Or.inl ⟨"wait", rfl⟩)
        · split
          · exact Or.inr (Or.inl ⟨n, rfl⟩)
          · exact Or.inr (Or.inr ⟨n, rfl⟩)

/-- No notification comes out of the action switch. -/
theorem notifsOf_execEvs (cfg : AgentCfg) (a : CAction) :
    notifsOf (execEvs cfg a) = [] := by
  rcases execEvs_shape cfg a with h | ⟨n, h⟩ | ⟨n, h⟩ <;> simp [h, notifsOf]

/-- No URL fetch comes out of the action switch. -/
theorem fetchedUrl_not_mem_execEvs (cfg : AgentCfg) (a : CAction) :
    Ev.fetchedUrl ∉ execEvs cfg a := by
  rcases execEvs_shape cfg a with h | ⟨n, h⟩ | ⟨n, h⟩ <;> simp [h]

/-- No oracle query comes out of the action switch. -/
theorem oracleQuery_not_mem_execEvs (cfg : AgentCfg) (a : CAction) (n : Nat) :
    Ev.oracleQuery n ∉ execEvs cfg a := by
  rcases execEvs_shape cfg a with h | ⟨m, h⟩ | ⟨m, h⟩ <;> simp [h]

/-- The loop exits at once when the interruption flag reads set or the last
accumulated item is an assistant-role message. -/
theorem runLoop_exit (cfg : AgentCfg) (fuel k qn : Nat) (acc : List Item)
    (h : intrFlag cfg.interruptAt k ∨
      (acc.getLast?.map Item.role).join = some "assistant") :
    runLoop cfg fuel k qn acc =
      { trace := [], k := k, acc := acc, exc := none, fuelOut := false } := by
  unfold runLoop
  rw [if_pos h]

/-- `Map.set` followed by `Map.get` at the same key finds the stored value. -/
theorem lookupSession_setSession (m : List (String × ServerSession))
    (id : String) (s : ServerSession) :
    lookupSession (setSession m id s) id = some s := by
  induction m with
  | nil => simp [setSession, lookupSession]
  | cons e rest ih =>
      rcases e with ⟨k, v⟩
      by_cases h : k = id
      · subst h
        simp [setSession, lookupSession]
      · have hb : (k == id) = false := by
          simp [h]
        simp only [setSession, hb, if_false]
        simp only [lookupSession, List.find?] at ih ⊢
        rw [hb]
        exact ih

/-! ## Claim theorems -/

/-- C1: for every Remote Executor request, at most one resolution ever fires
per correlation id.  Starting from registration by `sendAction`, over every
sequence of inbound action-responses and timer firings: (1) at most one
resolution fires; (2) while the id is still pending nothing has fired; (3) when
the channel is gone at send time the single resolution is the immediate
`ChannelClosed`-style rejection; (4) once any event has occurred the
correlation is settled exactly once; (5) an action-response or timer event for
an id that is no longer pending is a no-op — it does not resolve, reject, or
change any state. -/
theorem pending_correlation_at_most_one_resolution
    (wsOpenAtSend : Bool) (events : List RCEvent) :
    (events.foldl rcStep (rcRegister wsOpenAtSend)).outcomes.length ≤ 1
    ∧ ((events.foldl rcStep (rcRegister wsOpenAtSend)).pending = true →
        (events.foldl rcStep (rcRegister wsOpenAtSend)).outcomes = [])
    ∧ (wsOpenAtSend = false →
        (events.foldl rcStep (rcRegister wsOpenAtSend)).outcomes =
          [RCOutcome.rejectedClosed])
    ∧ (events ≠ [] →
        (events.foldl rcStep (rcRegister wsOpenAtSend)).outcomes.length = 1)
    ∧ (∀ s : PendingState, s.pending = false → ∀ e : RCEvent, rcStep s e = s) := by
  cases wsOpenAtSend with
  | false =>
      have hfin : events.foldl rcStep (rcRegister false) =
          { pending := false, outcomes := [RCOutcome.rejectedClosed] } := by
        exact foldl_rcStep_not_pending events _ rfl
      refine ⟨?_, ?_, ?_, ?_, rcStep_not_pending⟩ <;> simp [hfin]
  | true =>
      cases events with
      | nil =>
          refine ⟨?_, ?_, ?_, ?_, rcStep_not_pending⟩ <;> simp [rcRegister]
      | cons e rest =>
          have h1 : (rcStep (rcRegister true) e).pending = false ∧
              (rcStep (rcRegister true) e).outcomes.length = 1 := by
            have := rcStep_pending (rcRegister true) (by simp [rcRegister]) e
            simpa [rcRegister] using this
          have hfin : (e :: rest).foldl rcStep (rcRegister true) =
              rcStep (rcRegister true) e := by
            rw [List.foldl_cons]
            exact foldl_rcStep_not_pending rest _ h1.1
          refine ⟨?_, ?_, ?_, ?_, rcStep_not_pending⟩ <;>
            simp [hfin, h1.1, h1.2]

/-- Witness for C1: a deadline-timer expiry settles a freshly registered
correlation exactly once. -/
theorem pending_correlation_at_most_one_resolution_witness :
    (([RCEvent.timerFire] : List RCEvent).foldl rcStep
      (rcRegister true)).outcomes.length = 1 :=
  (pending_correlation_at_most_one_resolution true [RCEvent.timerFire]).2.2.2.1
    (by decide)

/-- Notifications of a concatenated trace. -/
theorem notifsOf_append (a b : List Ev) :
    notifsOf (a ++ b) = notifsOf a ++ notifsOf b := by
  simp [notifsOf]

/-- Notifications of a trace, peeled one event at a time. -/
theorem notifsOf_cons (e : Ev) (tr : List Ev) :
    notifsOf (e :: tr) =
      (match e with | Ev.notify m t => [(m, t)] | _ => []) ++ notifsOf tr := by
  cases e <;> simp [notifsOf]

/-- C2 (exhibiting the divergence): when the first oracle query fails in
transport, the terminal failure path of `runFullTurn` invokes the notification
callback twice — once with kind `error` and then once with kind `complete`,
because the completion guard checks only `!this.isInterrupted` — while it
appends the one synthetic assistant-style message to the returned transcript. -/
theorem runFullTurn_oracle_failure_two_notifications :
    notifsOf (runFullTurn cfgOracleFailure 1).1 =
      [("An error occurred while processing your request. Please try again.",
        MsgType.error),
       ("Agent execution completed.", MsgType.complete)]
    ∧ (runFullTurn cfgOracleFailure 1).2 =
        TurnEnd.finished
          [Item.assistantMsg
            "I encountered an error while processing your request. Please try again."] :=
  ⟨rfl, rfl⟩

/-- C3 (counterexample): with one pending safety check refused by the
callback, the turn ends as an uncaught exception propagating out of
`runFullTurn`, and the only notification ever delivered is the `action` one —
no `error` notification is emitted at all. -/
theorem safety_rejection_no_error_notification_cex :
    (runFullTurn cfgSafetyReject 1).2 =
      TurnEnd.excepted (AgentEx.safetyCheck "m")
    ∧ notifsOf (runFullTurn cfgSafetyReject 1).1 =
        [("click(args)", MsgType.action)] :=
  ⟨rfl, rfl⟩

/-- C3 (amended): for every computer_call carrying a pending safety check
whose message the acknowledgment callback refuses (the first refused check
`c`), the turn ends immediately after that action's screenshot capture — but
by the safety-check exception propagating uncaught out of `runFullTurn`, not
by an `error` notification: the only notification delivered for the item is
the `action` one, no URL fetch happens after the rejection, no further oracle
query occurs, and no computer_call_output is appended for the call. -/
theorem safety_rejection_exception_after_screenshot
    (cfg : AgentCfg) (f : Nat) (callId : String) (act : CAction)
    (checks : List SafetyCheck) (c : SafetyCheck)
    (hint : cfg.interruptAt = none)
    (hor : cfg.oracle 0 = Except.ok [Item.computerCall callId act checks])
    (hfind : checks.find? (fun ch => ! cfg.ack ch.message) = some c) :
    runFullTurn cfg (f + 1) =
      (Ev.oracleQuery 0 ::
        ((if cfg.printSteps then [Ev.notify (describeAction act) MsgType.action]
          else []) ++ execEvs cfg act ++ [Ev.tookScreenshot]),
       TurnEnd.excepted (AgentEx.safetyCheck c.message))
    ∧ notifsOf (runFullTurn cfg (f + 1)).1 =
        (if cfg.printSteps then [(describeAction act, MsgType.action)] else [])
    ∧ Ev.fetchedUrl ∉ (runFullTurn cfg (f + 1)).1
    ∧ (∀ n, Ev.oracleQuery n ∈ (runFullTurn cfg (f + 1)).1 → n = 0)
    ∧ (runLoop cfg (f + 1) 0 0 []).acc = [Item.computerCall callId act checks] := by
  have hloop : runLoop cfg (f + 1) 0 0 [] =
      { trace := Ev.oracleQuery 0 ::
          ((if cfg.printSteps then [Ev.notify (describeAction act) MsgType.action]
            else []) ++ execEvs cfg act ++ [Ev.tookScreenshot]),
        k := 2, acc := [Item.computerCall callId act checks],
        exc := some (AgentEx.safetyCheck c.message), fuelOut := false } := by
    unfold runLoop
    rw [hor]
    simp [hint, intrFlag, procItems, handleItem, hfind]
  have hrun : runFullTurn cfg (f + 1) =
      (Ev.oracleQuery 0 ::
        ((if cfg.printSteps then [Ev.notify (describeAction act) MsgType.action]
          else []) ++ execEvs cfg act ++ [Ev.tookScreenshot]),
       TurnEnd.excepted (AgentEx.safetyCheck c.message)) := by
    unfold runFullTurn
    rw [hloop]
  refine ⟨hrun, ?_, ?_, ?_, ?_⟩
  · rw [hrun]
    by_cases hps : cfg.printSteps = true <;>
      simp only [hps, if_true, if_false, notifsOf_cons, notifsOf_append,
        notifsOf_execEvs] <;>
      simp [notifsOf]
  · rw [hrun]
    intro hmem
    rcases List.mem_cons.mp hmem with h | h
    · exact absurd h (by simp)
    · rcases List.mem_append.mp h with h1 | h1
      · rcases List.mem_append.mp h1 with h2 | h2
        · by_cases hps : cfg.printSteps = true <;> simp [hps] at h2
        · exact fetchedUrl_not_mem_execEvs cfg act h2
      · simp at h1
  · rw [hrun]
    intro n hmem
    rcases List.mem_cons.mp hmem with h | h
    · simpa using h
    · exfalso
      rcases List.mem_append.mp h with h1 | h1
      · rcases List.mem_append.mp h1 with h2 | h2
        · by_cases hps : cfg.printSteps = true <;> simp [hps] at h2
        · exact oracleQuery_not_mem_execEvs cfg act n h2
      · simp at h1
  · rw [hloop]

/-- Witness for C3 (amended): the refused-safety-check scenario run concretely. -/
theorem safety_rejection_exception_after_screenshot_witness :
    runFullTurn cfgSafetyReject 1 =
      (Ev.oracleQuery 0 ::
        ((if cfgSafetyReject.printSteps then
            [Ev.notify (describeAction (CAction.click 1 2 (some "left")))
              MsgType.action]
          else []) ++
          execEvs cfgSafetyReject (CAction.click 1 2 (some "left")) ++
          [Ev.tookScreenshot]),
       TurnEnd.excepted (AgentEx.safetyCheck "m")) :=
  (safety_rejection_exception_after_screenshot cfgSafetyReject 0 "call-1"
    (CAction.click 1 2 (some "left")) [chkM] chkM rfl rfl rfl).1

/-- C9 (counterexample): a function_call naming a tool outside the registry
does get a notification emitted for it — the `action` notification fires
before the failing `tools[name].handler` lookup. -/
theorem unknown_tool_action_notification_cex :
    notifsOf (runFullTurn cfgUnknownTool 1).1 =
      [("badTool(1)", MsgType.action)]
    ∧ (runFullTurn cfgUnknownTool 1).2 =
        TurnEnd.excepted (AgentEx.undefinedHandler "badTool") :=
  ⟨rfl, rfl⟩

/-- C9 (amended): for every function_call item whose name is not a key of the
tool registry (which contains only `goto`), with `printSteps` active one
`action` notification describing the call is emitted first, then
`handleModelResponse` throws the property-access-on-undefined TypeError, which
propagates out of `runFullTurn`: no function_call_output item is appended for
that call_id, no further notification of any kind is emitted, no further
oracle query occurs, and no typed UnknownTool error value is produced — the
escaping value is the modelled TypeError. -/
theorem unknown_tool_throws_uncaught
    (cfg : AgentCfg) (f : Nat) (name args callId : String)
    (hint : cfg.interruptAt = none)
    (hps : cfg.printSteps = true)
    (hname : name ≠ "goto")
    (hor : cfg.oracle 0 = Except.ok [Item.functionCall name args callId]) :
    runFullTurn cfg (f + 1) =
      ([Ev.oracleQuery 0,
        Ev.notify (name ++ "(" ++ args ++ ")") MsgType.action],
       TurnEnd.excepted (AgentEx.undefinedHandler name))
    ∧ (runLoop cfg (f + 1) 0 0 []).acc = [Item.functionCall name args callId] := by
  have hloop : runLoop cfg (f + 1) 0 0 [] =
      { trace := [Ev.oracleQuery 0,
          Ev.notify (name ++ "(" ++ args ++ ")") MsgType.action],
        k := 2, acc := [Item.functionCall name args callId],
        exc := some (AgentEx.undefinedHandler name), fuelOut := false } := by
    unfold runLoop
    rw [hor]
    simp [hint, intrFlag, procItems, handleItem, hps, hname]
  constructor
  · unfold runFullTurn
    rw [hloop]
  · rw [hloop]

/-- Witness for C9 (amended): the unknown-tool scenario run concretely. -/
theorem unknown_tool_throws_uncaught_witness :
    runFullTurn cfgUnknownTool 1 =
      ([Ev.oracleQuery 0, Ev.notify "badTool(1)" MsgType.action],
       TurnEnd.excepted (AgentEx.undefinedHandler "badTool")) :=
  (unknown_tool_throws_uncaught cfgUnknownTool 0 "badTool" "1" "call-1"
    rfl rfl (by decide) rfl).1

/-- C10: for every computer_call whose action type is neither one of the
explicitly handled switch cases (click, scroll, keypress, type, wait) nor the
name of a method on the executor object, the turn does not fail: the default
branch logs a warning, a screenshot is still captured, the safety-check and
current-URL steps still run, a computer_call_output is appended for the
call_id, and the loop continues to the next oracle query (here a terminal
assistant message, ending the turn with a `complete` notification). -/
theorem unknown_computer_action_continues_turn
    (cfg : AgentCfg) (f : Nat) (name callId : String)
    (checks : List SafetyCheck)
    (hint : cfg.interruptAt = none)
    (hps : cfg.printSteps = true)
    (henv : cfg.environment = "browser")
    (hn1 : name ≠ "click") (hn2 : name ≠ "scroll") (hn3 : name ≠ "keypress")
    (hn4 : name ≠ "type") (hn5 : name ≠ "wait")
    (hmeth : cfg.methodNames.contains name = false)
    (hack : checks.find? (fun c => ! cfg.ack c.message) = none)
    (hor0 : cfg.oracle 0 =
      Except.ok [Item.computerCall callId (CAction.other name) checks])
    (hor1 : cfg.oracle 1 = Except.ok [Item.message ["done"]]) :
    runFullTurn cfg (f + 2) =
      ([Ev.oracleQuery 0,
        Ev.notify (describeAction (CAction.other name)) MsgType.action,
        Ev.warnedUnknownAction name, Ev.tookScreenshot, Ev.fetchedUrl,
        Ev.oracleQuery 1, Ev.notify "done" MsgType.thinking,
        Ev.notify "Agent execution completed." MsgType.complete],
       TurnEnd.finished
         [Item.computerCall callId (CAction.other name) checks,
          Item.computerCallOutput callId checks
            ("data:image/png;base64," ++ cfg.screenshotVal)
            (cfg.urlResult.getD ""),
          Item.message ["done"]]) := by
  have hmem : name ∉ cfg.methodNames := by simpa using hmeth
  have hexec : execEvs cfg (CAction.other name) = [Ev.warnedUnknownAction name] := by
    simp [execEvs, hn1, hn2, hn3, hn4, hn5, hmem]
  have hcc : handleItem cfg (Item.computerCall callId (CAction.other name) checks) =
      ([Ev.notify (describeAction (CAction.other name)) MsgType.action,
        Ev.warnedUnknownAction name, Ev.tookScreenshot, Ev.fetchedUrl],
       Except.ok [Item.computerCallOutput callId checks
         ("data:image/png;base64," ++ cfg.screenshotVal) (cfg.urlResult.getD "")]) := by
    simp [handleItem, hack, hexec, hps, henv]
  have hl2 : runLoop cfg (f + 1) 2 1
      [Item.computerCall callId (CAction.other name) checks,
       Item.computerCallOutput callId checks
         ("data:image/png;base64," ++ cfg.screenshotVal) (cfg.urlResult.getD "")] =
      { trace := [Ev.oracleQuery 1, Ev.notify "done" MsgType.thinking],
        k := 4,
        acc := [Item.computerCall callId (CAction.other name) checks,
          Item.computerCallOutput callId checks
            ("data:image/png;base64," ++ cfg.screenshotVal) (cfg.urlResult.getD ""),
          Item.message ["done"]],
        exc := none, fuelOut := false } := by
    unfold runLoop
    rw [hor1]
    have hex3 := runLoop_exit cfg f 4 2
      [Item.computerCall callId (CAction.other name) checks,
       Item.computerCallOutput callId checks
         ("data:image/png;base64," ++ cfg.screenshotVal) (cfg.urlResult.getD ""),
       Item.message ["done"]]
      (Or.inr (by simp [Item.role]))
    simp [hint, intrFlag, procItems, handleItem, hps, Item.role, hex3]
  have hloop : runLoop cfg (f + 2) 0 0 [] =
      { trace := [Ev.oracleQuery 0,
          Ev.notify (describeAction (CAction.other name)) MsgType.action,
          Ev.warnedUnknownAction name, Ev.tookScreenshot, Ev.fetchedUrl,
          Ev.oracleQuery 1, Ev.notify "done" MsgType.thinking],
        k := 4,
        acc := [Item.computerCall callId (CAction.other name) checks,
          Item.computerCallOutput callId checks
            ("data:image/png;base64," ++ cfg.screenshotVal) (cfg.urlResult.getD ""),
          Item.message ["done"]],
        exc := none, fuelOut := false } := by
    have hstep : (f : Nat) + 2 = (f + 1) + 1 := rfl
    rw [hstep]
    unfold runLoop
    rw [hor0]
    simp [hint, intrFlag, procItems, hcc, hl2]
  unfold runFullTurn
  rw [hloop]
  simp [hint, intrFlag]

/-- Witness for C10: the unrecognized-action scenario run concretely. -/
theorem unknown_computer_action_continues_turn_witness :
    runFullTurn cfgUnknownAction 2 =
      ([Ev.oracleQuery 0,
        Ev.notify (describeAction (CAction.other "weird")) MsgType.action,
        Ev.warnedUnknownAction "weird", Ev.tookScreenshot, Ev.fetchedUrl,
        Ev.oracleQuery 1, Ev.notify "done" MsgType.thinking,
        Ev.notify "Agent execution completed." MsgType.complete],
       TurnEnd.finished
         [Item.computerCall "call-1" (CAction.other "weird") [],
          Item.computerCallOutput "call-1" []
            ("data:image/png;base64," ++ cfgUnknownAction.screenshotVal)
            (cfgUnknownAction.urlResult.getD ""),
          Item.message ["done"]]) :=
  unknown_computer_action_continues_turn cfgUnknownAction 0 "weird" "call-1" []
    rfl rfl rfl (by decide) (by decide) (by decide) (by decide) (by decide)
    rfl rfl rfl rfl

/-- C4 (counterexample): a session with one attached observer connection whose
idle time exceeds the threshold is evicted by the sweep — the observer set is
not consulted. -/
theorem sweep_evicts_session_with_observers_cex :
    cleanupInactiveSessions (SESSION_TIMEOUT_MS + 1)
      [("conv", { token := 0, connectedClients := 1, lastActivity := 0 })] = [] :=
  rfl

/-- C4 (amended): after a sweep tick, a session is retained exactly when its
idle time does not exceed the 30-minute threshold, regardless of its observer
count: every stale session with zero observers is absent, and a stale session
with attached observers is evicted all the same. -/
theorem sweep_eviction_ignores_observers
    (now : Nat) (m : List (String × ServerSession)) (id : String)
    (s : ServerSession) :
    ((id, s) ∈ cleanupInactiveSessions now m ↔
      ((id, s) ∈ m ∧ now - s.lastActivity ≤ SESSION_TIMEOUT_MS))
    ∧ ((id, s) ∈ m → s.connectedClients = 0 →
        SESSION_TIMEOUT_MS < now - s.lastActivity →
        (id, s) ∉ cleanupInactiveSessions now m)
    ∧ ((id, s) ∈ m → 1 ≤ s.connectedClients →
        SESSION_TIMEOUT_MS < now - s.lastActivity →
        (id, s) ∉ cleanupInactiveSessions now m) := by
  have hmem : (id, s) ∈ cleanupInactiveSessions now m ↔
      ((id, s) ∈ m ∧ now - s.lastActivity ≤ SESSION_TIMEOUT_MS) := by
    simp [cleanupInactiveSessions, List.mem_filter]
  refine ⟨hmem, ?_, ?_⟩ <;> intro h1 h2 h3 hc <;>
    exact absurd (hmem.mp hc).2 (Nat.not_le.mpr h3)

/-- Witness for C4 (amended): the stale session with one observer from the
counterexample is indeed gone after the sweep. -/
theorem sweep_eviction_ignores_observers_witness :
    ("conv", ({ token := 0, connectedClients := 1, lastActivity := 0 } :
      ServerSession)) ∉
      cleanupInactiveSessions (SESSION_TIMEOUT_MS + 1)
        [("conv", { token := 0, connectedClients := 1, lastActivity := 0 })] :=
  (sweep_eviction_ignores_observers (SESSION_TIMEOUT_MS + 1)
    [("conv", { token := 0, connectedClients := 1, lastActivity := 0 })]
    "conv" { token := 0, connectedClients := 1, lastActivity := 0 }).2.2
    (by simp) (by decide) (by decide)

/-- C8: session creation is idempotent.  If a first call to
`initBrowserForConversation` returns session `s1` (whatever the path), a second
call for the same conversation id returns the same session instance — same
creation token, hence the same browser/agent pair — with only `lastActivity`
refreshed to the second call's time, and the creation counter unchanged (no
new browser/agent pair is constructed). -/
theorem initBrowserForConversation_idempotent
    (envOk : Bool) (n1 n2 : Nat) (st : ServerState) (id : String)
    (s1 : ServerSession) (st1 : ServerState)
    (h : initBrowserForConversation envOk n1 st id = Except.ok (s1, st1)) :
    initBrowserForConversation envOk n2 st1 id =
      Except.ok ({ s1 with lastActivity := n2 },
        { st1 with sessions := setSession st1.sessions id ({ s1 with lastActivity := n2 }) })
    ∧ ({ s1 with lastActivity := n2 } : ServerSession).token = s1.token
    ∧ ({ st1 with sessions := setSession st1.sessions id ({ s1 with lastActivity := n2 }) } : ServerState).nextToken =
        st1.nextToken := by
  have hlook : lookupSession st1.sessions id = some s1 := by
    unfold initBrowserForConversation at h
    cases hl : lookupSession st.sessions id with
    | some s0 =>
        rw [hl] at h
        simp only [Except.ok.injEq, Prod.mk.injEq] at h
        obtain ⟨hs, hst⟩ := h
        subst hst
        rw [← hs]
        exact lookupSession_setSession st.sessions id _
    | none =>
        rw [hl] at h
        by_cases he : envOk = true
        · simp only [he, if_true, Except.ok.injEq, Prod.mk.injEq] at h
          obtain ⟨hs, hst⟩ := h
          subst hst
          rw [← hs]
          exact lookupSession_setSession st.sessions id _
        · simp [he] at h
  constructor
  · unfold initBrowserForConversation
    rw [hlook]
  · exact ⟨rfl, rfl⟩

/-- Witness for C8: a create-then-resolve pair of calls on an empty registry. -/
theorem initBrowserForConversation_idempotent_witness :
    initBrowserForConversation true 2
      { sessions := [("conv", { token := 0, connectedClients := 0, lastActivity := 1 })],
        nextToken := 1 } "conv" =
      Except.ok ({ token := 0, connectedClients := 0, lastActivity := 2 },
        { sessions := [("conv", { token := 0, connectedClients := 0, lastActivity := 2 })],
          nextToken := 1 }) :=
  (initBrowserForConversation_idempotent true 1 2 { sessions := [], nextToken := 0 }
    "conv" { token := 0, connectedClients := 0, lastActivity := 1 }
    { sessions := [("conv", { token := 0, connectedClients := 0, lastActivity := 1 })],
      nextToken := 1 } rfl).1

/-- C5 (counterexample): a Remote Executor click with no channel attached does
not fail at all — it resolves (with the null result) and sends nothing. -/
theorem remote_click_no_channel_not_notready_cex :
    RemoteComputer.click rcDetached 1 2 "left" RoundTrip.timedOut =
      (Except.ok (), []) :=
  rfl

/-- C5 (amended): when the underlying surface is absent, every Local executor
operation fails with the NotReady error ("Page not initialized"), invoking no
driver primitive; the Remote executor, however, does not fail with NotReady
when no open channel is attached — every action operation resolves (with the
null result), and only screenshot/current-URL can fail, namely when no cached
value exists either. -/
theorem surface_absent_behavior
    (x y sx sy : Int) (b : String) (path : List (Int × Int))
    (keys : List String) (text url : String) (ms : Option Nat)
    (rc : RemoteComputer) (rt : RoundTrip)
    (hws : rc.wsAvailable = false) :
    Computer.click none x y b = ([], Except.error "Page not initialized")
    ∧ Computer.double_click none x y = ([], Except.error "Page not initialized")
    ∧ Computer.move none x y = ([], Except.error "Page not initialized")
    ∧ Computer.drag none path = ([], Except.error "Page not initialized")
    ∧ Computer.scroll none x y sx sy = ([], Except.error "Page not initialized")
    ∧ Computer.keypress none keys = ([], Except.error "Page not initialized")
    ∧ Computer.type none text = ([], Except.error "Page not initialized")
    ∧ Computer.wait none ms = ([], Except.error "Page not initialized")
    ∧ Computer.screenshot none = ([], Except.error "Page not initialized")
    ∧ Computer.get_current_url none = ([], Except.error "Page not initialized")
    ∧ Computer.goto none url = ([], Except.error "Page not initialized")
    ∧ Computer.back none = ([], Except.error "Page not initialized")
    ∧ Computer.forward none = ([], Except.error "Page not initialized")
    ∧ (RemoteComputer.click rc x y b rt).1 = Except.ok ()
    ∧ (RemoteComputer.double_click rc x y rt).1 = Except.ok ()
    ∧ (RemoteComputer.move rc x y rt).1 = Except.ok ()
    ∧ (2 ≤ path.length → (RemoteComputer.drag rc path rt).1 = Except.ok ())
    ∧ (RemoteComputer.scroll rc x y sx sy rt).1 = Except.ok ()
    ∧ (RemoteComputer.keypress rc keys rt).1 = Except.ok ()
    ∧ (RemoteComputer.type rc text rt).1 = Except.ok ()
    ∧ (RemoteComputer.wait rc ms rt).1 = Except.ok ()
    ∧ (RemoteComputer.goto rc url rt).1 = Except.ok ()
    ∧ (RemoteComputer.back rc rt).1 = Except.ok ()
    ∧ (RemoteComputer.forward rc rt).1 = Except.ok ()
    ∧ (rc.lastScreenshot = none →
        (RemoteComputer.screenshot rc rt).1 =
          Except.error "No screenshot available")
    ∧ (rc.currentUrl = none →
        (RemoteComputer.get_current_url rc rt).1 =
          Except.error "Current URL not available") := by
  refine ⟨rfl, rfl, rfl, rfl, rfl, rfl, rfl, rfl, rfl, rfl, rfl, rfl, rfl,
    ?_, ?_, ?_, ?_, ?_, ?_, ?_, ?_, ?_, ?_, ?_, ?_, ?_⟩
  · simp [RemoteComputer.click, RemoteComputer.sendAction, hws, voidResult, Except.map]
  · simp [RemoteComputer.double_click, RemoteComputer.sendAction, hws, voidResult, Except.map]
  · simp [RemoteComputer.move, RemoteComputer.sendAction, hws, voidResult, Except.map]
  · intro hp
    have hnl : ¬ path.length < 2 := Nat.not_lt.mpr hp
    simp [RemoteComputer.drag, hnl, RemoteComputer.sendAction, hws, voidResult, Except.map]
  · simp [RemoteComputer.scroll, RemoteComputer.sendAction, hws, voidResult, Except.map]
  · simp [RemoteComputer.keypress, RemoteComputer.sendAction, hws, voidResult, Except.map]
  · simp [RemoteComputer.type, RemoteComputer.sendAction, hws, voidResult, Except.map]
  · simp [RemoteComputer.wait, RemoteComputer.sendAction, hws, voidResult, Except.map]
  · simp [RemoteComputer.goto, RemoteComputer.sendAction, hws, voidResult, Except.map]
  · simp [RemoteComputer.back, RemoteComputer.sendAction, hws, voidResult, Except.map]
  · simp [RemoteComputer.forward, RemoteComputer.sendAction, hws, voidResult, Except.map]
  · intro hcache
    simp [RemoteComputer.screenshot, RemoteComputer.sendAction, hws, hcache]
  · intro hcache
    simp [RemoteComputer.get_current_url, RemoteComputer.sendAction, hws, hcache]

/-- Witness for C5 (amended): the local click with no page handle. -/
theorem surface_absent_behavior_witness :
    Computer.click none 1 2 "left" = ([], Except.error "Page not initialized") :=
  (surface_absent_behavior 1 2 0 0 "left" [] [] "t" "u" none rcDetached
    RoundTrip.timedOut rfl).1

/-- C6 (counterexample): `screenshot()` on the Remote executor with no channel
attached and no cached screenshot does fail (it throws "No screenshot
available") instead of returning a null/no-op result. -/
theorem remote_screenshot_no_channel_no_cache_fails_cex :
    RemoteComputer.screenshot rcDetached RoundTrip.timedOut =
      (Except.error "No screenshot available", []) :=
  rfl

/-- C6 (amended): on the Remote executor with no open channel attached, every
action operation degrades gracefully — it resolves with the null result,
sending nothing, so the turn loop is not aborted; `screenshot()` and
`get_current_url()` return the cached value when one exists, but when no
cached value exists they throw ("No screenshot available" / "Current URL not
available") rather than returning a null result. -/
theorem remote_no_channel_degradation
    (rc : RemoteComputer) (rt : RoundTrip) (x y sx sy : Int)
    (b text url : String) (keys : List String) (ms : Option Nat)
    (path : List (Int × Int))
    (hws : rc.wsAvailable = false) :
    RemoteComputer.click rc x y b rt = (Except.ok (), [])
    ∧ RemoteComputer.double_click rc x y rt = (Except.ok (), [])
    ∧ RemoteComputer.move rc x y rt = (Except.ok (), [])
    ∧ (2 ≤ path.length → RemoteComputer.drag rc path rt = (Except.ok (), []))
    ∧ RemoteComputer.scroll rc x y sx sy rt = (Except.ok (), [])
    ∧ RemoteComputer.keypress rc keys rt = (Except.ok (), [])
    ∧ RemoteComputer.type rc text rt = (Except.ok (), [])
    ∧ RemoteComputer.wait rc ms rt = (Except.ok (), [])
    ∧ RemoteComputer.goto rc url rt = (Except.ok (), [])
    ∧ RemoteComputer.back rc rt = (Except.ok (), [])
    ∧ RemoteComputer.forward rc rt = (Except.ok (), [])
    ∧ (∀ s, rc.lastScreenshot = some s →
        RemoteComputer.screenshot rc rt = (Except.ok s, []))
    ∧ (rc.lastScreenshot = none →
        RemoteComputer.screenshot rc rt =
          (Except.error "No screenshot available", []))
    ∧ (∀ u, rc.currentUrl = some u →
        RemoteComputer.get_current_url rc rt = (Except.ok u, []))
    ∧ (rc.currentUrl = none →
        RemoteComputer.get_current_url rc rt =
          (Except.error "Current URL not available", [])) := by
  refine ⟨?_, ?_, ?_, ?_, ?_, ?_, ?_, ?_, ?_, ?_, ?_, ?_, ?_, ?_, ?_⟩
  · simp [RemoteComputer.click, RemoteComputer.sendAction, hws, voidResult, Except.map]
  · simp [RemoteComputer.double_click, RemoteComputer.sendAction, hws, voidResult, Except.map]
  · simp [RemoteComputer.move, RemoteComputer.sendAction, hws, voidResult, Except.map]
  · intro hp
    have hnl : ¬ path.length < 2 := Nat.not_lt.mpr hp
    simp [RemoteComputer.drag, hnl, RemoteComputer.sendAction, hws, voidResult, Except.map]
  · simp [RemoteComputer.scroll, RemoteComputer.sendAction, hws, voidResult, Except.map]
  · simp [RemoteComputer.keypress, RemoteComputer.sendAction, hws, voidResult, Except.map]
  · simp [RemoteComputer.type, RemoteComputer.sendAction, hws, voidResult, Except.map]
  · simp [RemoteComputer.wait, RemoteComputer.sendAction, hws, voidResult, Except.map]
  · simp [RemoteComputer.goto, RemoteComputer.sendAction, hws, voidResult, Except.map]
  · simp [RemoteComputer.back, RemoteComputer.sendAction, hws, voidResult, Except.map]
  · simp [RemoteComputer.forward, RemoteComputer.sendAction, hws, voidResult, Except.map]
  · intro s hcache
    simp [RemoteComputer.screenshot, RemoteComputer.sendAction, hws, hcache]
  · intro hcache
    simp [RemoteComputer.screenshot, RemoteComputer.sendAction, hws, hcache]
  · intro u hcache
    simp [RemoteComputer.get_current_url, RemoteComputer.sendAction, hws, hcache]
  · intro hcache
    simp [RemoteComputer.get_current_url, RemoteComputer.sendAction, hws, hcache]

/-- Witness for C6 (amended): a disconnected remote double-click resolves with
nothing sent. -/
theorem remote_no_channel_degradation_witness :
    RemoteComputer.double_click rcDetached 5 6 RoundTrip.timedOut =
      (Except.ok (), []) :=
  (remote_no_channel_degradation rcDetached RoundTrip.timedOut 5 6 0 0 "left"
    "t" "u" [] none [] rfl).2.1

/-- C7 (counterexample): a drag with a path of length 1 on the Local executor
with no page handle fails with the NotReady error ("Page not initialized"),
not with the InvalidArgument error. -/
theorem local_drag_short_path_no_page_cex :
    Computer.drag none [((1 : Int), (2 : Int))] =
      ([], Except.error "Page not initialized")
    ∧ (Except.error "Page not initialized" : Except String Unit) ≠
        Except.error "Drag path must contain at least two points" :=
  ⟨rfl, by simp⟩

/-- C7 (amended): every drag call whose path has fewer than two points fails
before any channel message or driver primitive: on the Remote executor it
always fails with the InvalidArgument error (the length check precedes the
channel check); on the Local executor it fails with the InvalidArgument error
when a page handle is present, and with the NotReady error when the page
handle is absent (the page check comes first) — in every case nothing is sent
and no driver primitive is invoked. -/
theorem drag_short_path_rejected
    (path : List (Int × Int)) (rc : RemoteComputer) (rt : RoundTrip)
    (hlen : path.length < 2) :
    RemoteComputer.drag rc path rt =
      (Except.error "Drag path must contain at least two points", [])
    ∧ Computer.drag (some ()) path =
        ([], Except.error "Drag path must contain at least two points")
    ∧ Computer.drag none path = ([], Except.error "Page not initialized") := by
  refine ⟨?_, ?_, rfl⟩
  · simp [RemoteComputer.drag, hlen]
  · simp [Computer.drag, hlen]

/-- Witness for C7 (amended): a one-point drag on a disconnected remote
executor. -/
theorem drag_short_path_rejected_witness :
    RemoteComputer.drag rcDetached [((3 : Int), (4 : Int))] RoundTrip.timedOut =
      (Except.error "Drag path must contain at least two points", []) :=
  (drag_short_path_rejected [((3 : Int), (4 : Int))] rcDetached
    RoundTrip.timedOut (by decide)).1
